import Mathlib

/-
  Verification development for the EcoFit Carbon Coach service
  (src/api.py and src/main.py).

  The embedding models:
  * the free-text product-category resolver `find_product_category` (api.py
    lines 287-298) over the static keyword table PRODUCT_KEYWORDS;
  * the "calculate" flow of both variants (api.py lines 331-379 with the
    pydantic AnswersModel validators, main.py lines 76-99);
  * the "product" flow of api.py (lines 381-413) with the fallback messages;
  * the "challenge" flow (api.py lines 415-427 / main.py lines 121-133).

  Numeric values are modelled as exact rationals.  Where a stated value
  would be float-sensitive — main.py's unrounded score sum — the IEEE-754
  binary64 arithmetic of the Python program is modelled exactly (fl53 /
  mainScoreFloat below) and the theorem gives the bit-exact value the
  program produces; everywhere else the stated outcomes coincide under
  float and exact arithmetic.  Python exceptions that escape a handler
  (KeyError on a dict index, ZeroDivisionError, the uncaught pydantic
  ValidationError of api.py line 332) are modelled as explicit error
  constructors.

  For executability the similarity scores are carried as exact
  (numerator, denominator) pairs of naturals and compared by
  cross-multiplication; the lemmas sGe80_iff / sLt_iff / sLe_iff prove
  these comparisons coincide with the comparisons of the rational
  0-100 score value `valQ`, which the theorems are stated with.
-/

namespace EcoFit

/-- Python's `str.lower()` (api.py line 288 applies it to the input).
Structural analogue of `String.toLower`; mapped characterwise so that it
evaluates by kernel reduction. -/
def lower (s : String) : String := ⟨s.data.map Char.toLower⟩

/-- One row update of the longest-common-subsequence dynamic program:
given the previous row `p0 :: p1 :: ps` and the value `curr` already
computed for the current row, produce the rest of the current row. -/
def lcsRow (a : Char) : List Char → List Nat → Nat → List Nat
  | b :: bs, p0 :: p1 :: ps, curr =>
      let v := if a = b then p0 + 1 else max curr p1
      v :: lcsRow a bs (p1 :: ps) v
  | _, _, _ => []

/-- Length of a longest common subsequence of two character lists,
computed by the standard dynamic program (row by row). -/
def lcs (xs ys : List Char) : Nat :=
  (xs.foldl (fun row a => 0 :: lcsRow a ys row 0)
    (List.replicate (ys.length + 1) 0)).getLast?.getD 0

/-- Largest LCS length between `shorter` and any contiguous window of
`longer` of length `shorter.length`. -/
def maxLcsWindow (shorter longer : List Char) : Nat :=
  ((List.range (longer.length - shorter.length + 1)).map
    (fun i => lcs shorter ((longer.drop i).take shorter.length))).foldl max 0

/-- Modelled from the spec: the library similarity metric
`rapidfuzz.fuzz.partial_ratio` used by `find_product_category` is not part
of this repository.  Per the spec it is a 0-100 partial similarity score:
the shorter string is aligned against every window of the longer one and
scored by the indel-normalised ratio `2*LCS/(len1+len2)*100`; a literal
substring scores exactly 100, an empty side scores 0, and the score
degrades gracefully for near misses.  All windows share the shorter
string's length `m`, so the score is the rational `100 * bestLCS / m`,
represented exactly by the pair `(bestLCS, m)`; an empty side is
represented by `(0, 1)`, i.e. score 0. -/
def psimN (x y : String) : Nat × Nat :=
  let a := x.data
  let b := y.data
  if a.length = 0 ∨ b.length = 0 then (0, 1)
  else if a.length ≤ b.length then (maxLcsWindow a b, a.length)
  else (maxLcsWindow b a, b.length)

/-- The 0-100 rational value of a similarity-score pair. -/
def valQ (a : Nat × Nat) : ℚ := 100 * a.1 / a.2

/-- The partial similarity score of keyword `x` against text `y`, as the
exact rational on the 0-100 scale. -/
def psim (x y : String) : ℚ := valQ (psimN x y)

/-- Boolean test `80 ≤ 100 * a.1 / a.2` by cross-multiplication. -/
def sGe80 (a : Nat × Nat) : Bool := decide (4 * a.2 ≤ 5 * a.1)

/-- Boolean test `100 * a.1 / a.2 < 100 * b.1 / b.2` by cross-multiplication. -/
def sLt (a b : Nat × Nat) : Bool := decide (a.1 * b.2 < b.1 * a.2)

/-- The static keyword table PRODUCT_KEYWORDS of api.py (lines 191-212),
in the dictionary's insertion order. -/
def PRODUCT_KEYWORDS : List (String × List String) := [
  ("phone", ["phone", "mobile", "cellphone", "smartphone", "iphone",
    "android phone", "refurbished phone", "handset", "cell", "mobile phone"]),
  ("laptop", ["laptop", "notebook", "macbook", "chromebook",
    "refurbished laptop", "computer", "pc", "ultrabook"]),
  ("clothing", ["clothing", "clothes", "shirt", "t-shirt", "jacket", "jeans",
    "dress", "pants", "apparel", "outfit", "garment", "refurbished clothes",
    "organic cotton"]),
  ("home", ["furniture", "sofa", "table", "chair", "bed", "home decor",
    "curtain", "carpet", "lamp", "cushion"]),
  ("electronics", ["electronics", "gadget", "device", "camera", "headphone",
    "speaker", "tv", "monitor", "tablet", "console"]),
  ("beauty", ["beauty", "cosmetic", "makeup", "skincare", "cream", "lotion",
    "perfume", "personal care"])]

/-- The (category, keyword) pairs in the exact order the Python double
loop `for category, keywords in PRODUCT_KEYWORDS.items(): for kw in
keywords:` visits them. -/
def keywordPairs : List (String × String) :=
  PRODUCT_KEYWORDS.flatMap (fun ck => ck.2.map (fun kw => (ck.1, kw)))

/-- One iteration of the loop body of `find_product_category` (api.py
lines 291-296): `score = fuzz.partial_ratio(kw, product_str)` followed by
`if score > highest_score and score >= 80:` updating the running
accumulator `(best_match, highest_score)`.  `highest_score` starts at 0,
represented `(0, 1)`. -/
def stepMatch (s : String) (acc : Option String × (Nat × Nat))
    (p : String × String) : Option String × (Nat × Nat) :=
  let score := psimN p.2 s
  if sLt acc.2 score && sGe80 score then (some p.1, score) else acc

/-- `find_product_category` of api.py (lines 287-298): lower-case the
input, scan every (category, keyword) pair keeping the strictly best
score that reaches the threshold 80, and return the best category. -/
def find_product_category (product_str : String) : Option String :=
  (keywordPairs.foldl (stepMatch (lower product_str)) (none, (0, 1))).1

/-- The CO2_FACTORS["transport"] table (api.py lines 22-25, main.py 37). -/
def CO2_transport : List (String × ℚ) :=
  [("Car", 2.3), ("Bus", 0.8), ("Bicycle", 0.05), ("Walking", 0),
   ("Electric Scooter", 0.2)]

/-- The CO2_FACTORS["shopping"] table (api.py lines 26-32, main.py 38-44). -/
def CO2_shopping : List (String × ℚ) :=
  [("Groceries & Food", 1), ("Clothing & Fashion", 2.5),
   ("Electronics & Gadgets", 3), ("Home & Living", 1.5),
   ("Beauty & Personal Care", 1.2)]

/-- The CO2_FACTORS["electronics_freq"] table (api.py lines 33-35, main.py 45). -/
def CO2_electronics_freq : List (String × ℚ) :=
  [("Every year", 2.5), ("Every 2-3 years", 1), ("Rarely", 0.3)]

/-- Python truthiness of an optional string field: `not x` is true for an
absent value and for the empty string. -/
def falsy : Option String → Bool
  | none => true
  | some v => v = ""

/-- One pydantic validator of AnswersModel (api.py lines 232-248): a
supplied label that is not a key of its CO2_FACTORS sub-table raises
ValueError (surfaced by the handler as a 400 validation response);
validators are skipped for absent fields. -/
def validatorRejects (v : Option String) (tbl : List (String × ℚ)) : Bool :=
  match v with
  | none => false
  | some x => (tbl.lookup x).isNone

/-- Round to the nearest integer, ties to even — Python's round() on an
exactly-representable value. -/
def roundHalfEven (q : ℚ) : ℤ :=
  if q - (⌊q⌋ : ℚ) < 1 / 2 then ⌊q⌋
  else if (1 : ℚ) / 2 < q - (⌊q⌋ : ℚ) then ⌊q⌋ + 1
  else if ⌊q⌋ % 2 = 0 then ⌊q⌋ else ⌊q⌋ + 1

/-- Python's round(x, 1). -/
def round1 (q : ℚ) : ℚ := (roundHalfEven (10 * q) : ℚ) / 10

/-- Round n/d (with d > 0) to the nearest natural, ties to even. -/
def roundHalfEvenN (n d : ℕ) : ℕ :=
  let q := n / d
  let r := n % d
  if 2 * r < d then q
  else if d < 2 * r then q + 1
  else if q % 2 = 0 then q else q + 1

/-- Fuel-driven base-2 logarithm (structural analogue of Nat.log2, which
is defined by well-founded recursion and does not evaluate by kernel
reduction): log2fuel n n is the floor of log2 n for n > 0. -/
def log2fuel : ℕ → ℕ → ℕ
  | 0, _ => 0
  | fuel + 1, n => if n ≤ 1 then 0 else log2fuel fuel (n / 2) + 1

/-- Floor of log2 n for n > 0 (0 at 0). -/
def log2n (n : ℕ) : ℕ := log2fuel n n

/-- The binary exponent of the positive rational n/d: the unique e with
2^e ≤ n/d < 2^(e+1), computed from the bit lengths and one correcting
comparison. -/
def qexp (n d : ℕ) : ℤ :=
  let e0 : ℤ := (log2n n : ℤ) - (log2n d : ℤ)
  if (if 0 ≤ e0 then n < 2 ^ e0.toNat * d else n * 2 ^ (-e0).toNat < d)
  then e0 - 1 else e0

/-- IEEE-754 binary64 rounding (round to nearest, ties to even) of the
exact non-negative rational a.1/a.2, as performed by every Python float
operation: the value is scaled so its 53-bit significand is an integer,
rounded half-to-even, and re-scaled.  The result is the exact dyadic
rational the double holds, again as a (numerator, denominator) pair.
Subnormal and overflow ranges are not modelled — every value arising in
this file lies well inside the normal range. -/
def fl53 (a : ℕ × ℕ) : ℕ × ℕ :=
  if a.1 = 0 ∨ a.2 = 0 then (0, 1)
  else
    let e := qexp a.1 a.2
    let k : ℤ := 52 - e
    let m := if 0 ≤ k then roundHalfEvenN (a.1 * 2 ^ k.toNat) a.2
             else roundHalfEvenN a.1 (a.2 * 2 ^ (-k).toNat)
    if 0 ≤ e - 52 then (m * 2 ^ (e - 52).toNat, 1) else (m, 2 ^ (52 - e).toNat)

/-- Exact rational addition on (numerator, denominator) pairs. -/
def addP (a b : ℕ × ℕ) : ℕ × ℕ := (a.1 * b.2 + b.1 * a.2, a.2 * b.2)

/-- Exact rational multiplication on (numerator, denominator) pairs. -/
def mulP (a b : ℕ × ℕ) : ℕ × ℕ := (a.1 * b.1, a.2 * b.2)

/-- The rational value of a (numerator, denominator) pair. -/
def valP (a : ℕ × ℕ) : ℚ := (a.1 : ℚ) / (a.2 : ℚ)

/-- The score computation of main.py lines 84-88 for the choices
Car / Groceries & Food / Rarely, under the float semantics the Python
program actually uses: the parsed double literals 2.3, 1.0 and 0.3 are
summed left to right with every intermediate rounded to binary64, then
multiplied by 100 and rounded again; main.py returns this value without
any further rounding. -/
def mainScoreFloatP : ℕ × ℕ :=
  fl53 (mulP (fl53 (addP (fl53 (addP (fl53 (23, 10)) (fl53 (1, 1))))
    (fl53 (3, 10)))) (fl53 (100, 1)))

/-- The exact rational value of main.py's float score for
Car / Groceries & Food / Rarely. -/
def mainScoreFloat : ℚ := valP mainScoreFloatP

/-- Outcome of one "calculate" request.  `score` is the 200 JSON response
carrying the numeric score; `validationError` is the 400 response produced
when a pydantic validation failure was caught by the try/except of api.py
lines 309-313; `missingAnswers` is the 400 missing-answers response;
`keyError` is an uncaught KeyError escaping the handler;
`uncaughtValidationError` is an uncaught pydantic ValidationError escaping
the handler (api.py line 332).  The two uncaught outcomes surface as
HTTP 500, not as structured responses. -/
inductive CalcOutcome
  | score (q : ℚ)
  | validationError
  | missingAnswers
  | keyError
  | uncaughtValidationError
deriving DecidableEq

/-- The "calculate" flow of api.py, covering both request shapes.
`CarbonScoreRequest(**body)` is parsed inside the try/except of lines
309-313: a nested answers object (modelled by `answers = some (a1, a2,
a3)`, where none is an absent field) is validated there by the
AnswersModel validators — a validator runs on every supplied field, while
an absent field defaults to None with its validator skipped — and a
failure becomes the structured 400 validation response.  When no nested
answers object was sent (`answers = none`), line 332 constructs
`AnswersModel(transport=data.transport, shopping=..., electronics_freq=...)`
outside the try block, passing all three keyword arguments explicitly, so
every validator runs even on a None value: a missing or invalid top-level
label raises an uncaught pydantic ValidationError (HTTP 500), modelled as
`.uncaughtValidationError`.  A surviving request passes the falsy check of
line 338 (else the missing-answers 400) and is scored as
`(CO2[t] + CO2[s] + CO2[e]) * 100` rounded to one decimal (line 374); a
failing dict index would be an uncaught KeyError. -/
def apiCalculate (answers : Option (Option String × Option String × Option String))
    (t s e : Option String) : CalcOutcome :=
  match answers with
  | some (a1, a2, a3) =>
    if validatorRejects a1 CO2_transport || validatorRejects a2 CO2_shopping ||
        validatorRejects a3 CO2_electronics_freq then .validationError
    else if falsy a1 || falsy a2 || falsy a3 then .missingAnswers
    else match a1, a2, a3 with
      | some tv, some sv, some ev =>
        match CO2_transport.lookup tv, CO2_shopping.lookup sv,
            CO2_electronics_freq.lookup ev with
        | some a, some b, some c => .score (round1 ((a + b + c) * 100))
        | _, _, _ => .keyError
      | _, _, _ => .missingAnswers
  | none =>
    match t, s, e with
    | some tv, some sv, some ev =>
      if (CO2_transport.lookup tv).isNone || (CO2_shopping.lookup sv).isNone ||
          (CO2_electronics_freq.lookup ev).isNone then .uncaughtValidationError
      else match CO2_transport.lookup tv, CO2_shopping.lookup sv,
          CO2_electronics_freq.lookup ev with
        | some a, some b, some c => .score (round1 ((a + b + c) * 100))
        | _, _, _ => .keyError
    | _, _, _ => .uncaughtValidationError

/-- The "calculate" flow of main.py (lines 76-99): no pydantic validation;
missing/empty answers give the 400, and the dict indexing on line 85-87
raises an uncaught KeyError for a label absent from CO2_FACTORS.  The
score is the raw weight sum times 100 (no rounding in this variant).  The
score arm idealizes the Python float sum as an exact rational; the
bit-exact IEEE-754 value of the concrete scenario is established through
mainScoreFloat above, and the rejection/KeyError facts stated about this
definition do not depend on the numeric value. -/
def mainCalculate (t s e : Option String) : CalcOutcome :=
  if falsy t || falsy s || falsy e then .missingAnswers
  else match t, s, e with
    | some tv, some sv, some ev =>
      match CO2_transport.lookup tv, CO2_shopping.lookup sv,
          CO2_electronics_freq.lookup ev with
      | some a, some b, some c => .score ((a + b + c) * 100)
      | _, _, _ => .keyError
    | _, _, _ => .missingAnswers

/-- Outcome of one "challenge" request.  `ahead` is the message
"You're already beating your friend — keep it up!"; `trails pct` is
"Swap 2 car trips a week for cycling to beat them by {pct}%!";
`zeroDivisionError` is an uncaught ZeroDivisionError. -/
inductive ChallengeResult
  | ahead
  | trails (pct : ℚ)
  | zeroDivisionError
deriving DecidableEq

/-- The "challenge" flow, identical in api.py (lines 421-425) and main.py
(lines 127-131): `if my_score < friend_score:` yields the ahead message;
otherwise `round((my_score - friend_score) / my_score * 100, 1)` is
computed, which raises ZeroDivisionError when my_score == 0. -/
def challenge (my friend : ℚ) : ChallengeResult :=
  if my < friend then .ahead
  else if my = 0 then .zeroDivisionError
  else .trails (round1 ((my - friend) / my * 100))

/-- One alternative product of PRODUCT_DB (api.py lines 134-189). -/
structure AltInfo where
  name : String
  carbon_score : ℚ
  reason : String
deriving DecidableEq

/-- One PRODUCT_DB entry: baseline carbon score and alternatives. -/
structure ProductInfo where
  carbon_score : ℚ
  alternatives : List AltInfo
deriving DecidableEq

/-- The static product catalog PRODUCT_DB of api.py (lines 134-189). -/
def PRODUCT_DB : List (String × ProductInfo) := [
  ("phone", ⟨70, [
    ⟨"Refurbished phone model X", 50,
      "Avoids new manufacturing emissions with recycled parts."⟩,
    ⟨"Phone model Y with recycled aluminum", 55,
      "Uses 30% recycled aluminum reducing CO₂ footprint."⟩]⟩),
  ("laptop", ⟨150, [
    ⟨"Eco-friendly laptop brand A", 110,
      "Energy-efficient and fair-trade materials."⟩,
    ⟨"Refurbished laptop model B", 100,
      "Certified refurbished with extended warranty."⟩]⟩),
  ("clothing", ⟨40, [
    ⟨"Organic cotton shirt", 25,
      "Uses less water and no synthetic pesticides."⟩,
    ⟨"Recycled polyester jacket", 30,
      "Made from recycled plastic bottles."⟩]⟩),
  ("home", ⟨60, [
    ⟨"Sustainably sourced wooden chair", 45,
      "Uses certified sustainable wood."⟩,
    ⟨"Energy-efficient LED lamp", 40,
      "Consumes less electricity and lasts longer."⟩]⟩),
  ("electronics", ⟨100, [
    ⟨"Certified refurbished camera", 75,
      "Reuses components to reduce manufacturing."⟩,
    ⟨"Energy Star rated speaker", 80,
      "Designed for low energy consumption."⟩]⟩),
  ("beauty", ⟨30, [
    ⟨"Biodegradable skincare set", 20,
      "Natural ingredients and eco-friendly packaging."⟩,
    ⟨"Refillable makeup products", 22,
      "Reduces plastic waste and packaging footprint."⟩]⟩)]

/-- The five canned fallback messages FALLBACK_RESPONSES (api.py 214-220). -/
def FALLBACK_RESPONSES : List String := [
  "Oops! We\x27re still working on that one. Please try something else! 😊",
  "Hmm, I didn\x27t quite get that. Could you try another input? 🌱",
  "Our eco-bot is learning new things every day. Try a different product or choice! 🌎",
  "Sorry, I don\x27t have info on that yet, but stay tuned for updates! 💚",
  "I\x27m still growing my knowledge garden. Give me another try! 🌿"]

/-- `get_fallback_response` (api.py lines 222-223): random.choice over
FALLBACK_RESPONSES, with the random draw modelled as an arbitrary natural
index taken modulo the list length. -/
def get_fallback_response (r : Nat) : String :=
  FALLBACK_RESPONSES.getD (r % FALLBACK_RESPONSES.length) ""

/-- The filter of api.py line 398: keep alternatives whose carbon score is
at most 80% of the baseline. -/
def better_alternatives (p : ProductInfo) : List AltInfo :=
  p.alternatives.filter (fun alt => alt.carbon_score ≤ p.carbon_score * 0.8)

/-- Outcome of one "product" request: the 400 missing-product response,
a fallback message, or the success payload (api.py lines 381-413). -/
inductive ProductResponse
  | missingProduct
  | fallback (msg : String)
  | info (product : String) (carbon_score : ℚ) (better : List AltInfo)
deriving DecidableEq

/-- The "product" flow of api.py (lines 381-413): a falsy product name is
the 400; an unresolved category or a category missing from PRODUCT_DB
yields a randomly chosen fallback message; otherwise the baseline score
and filtered alternatives are returned. -/
def productMode (product : Option String) (r : Nat) : ProductResponse :=
  match product with
  | none => .missingProduct
  | some p =>
    if p = "" then .missingProduct
    else
      match find_product_category p with
      | none => .fallback (get_fallback_response r)
      | some category =>
        match PRODUCT_DB.lookup category with
        | none => .fallback (get_fallback_response r)
        | some pinfo => .info p pinfo.carbon_score (better_alternatives pinfo)

/- ### Bridging lemmas: the executable cross-multiplied comparisons agree
with the comparisons of the rational 0-100 score values. -/

lemma psimN_den_pos (x y : String) : 0 < (psimN x y).2 := by
  unfold psimN
  dsimp only
  split
  · exact Nat.one_pos
  · rename_i h
    push_neg at h
    split
    · exact Nat.pos_of_ne_zero h.1
    · exact Nat.pos_of_ne_zero h.2

lemma valQ_nonneg (a : Nat × Nat) : 0 ≤ valQ a := by
  unfold valQ
  positivity

lemma sGe80_iff (a : Nat × Nat) (ha : 0 < a.2) :
    sGe80 a = true ↔ 80 ≤ valQ a := by
  have h2 : (0 : ℚ) < (a.2 : ℚ) := by exact_mod_cast ha
  rw [sGe80, decide_eq_true_iff, valQ, le_div_iff₀ h2]
  rw [show (80 : ℚ) * a.2 = 20 * (4 * a.2) by ring,
      show (100 : ℚ) * a.1 = 20 * (5 * a.1) by ring,
      mul_le_mul_left (by norm_num : (0 : ℚ) < 20)]
  exact_mod_cast Iff.rfl

lemma sLt_iff (a b : Nat × Nat) (ha : 0 < a.2) (hb : 0 < b.2) :
    sLt a b = true ↔ valQ a < valQ b := by
  have ha2 : (0 : ℚ) < (a.2 : ℚ) := by exact_mod_cast ha
  have hb2 : (0 : ℚ) < (b.2 : ℚ) := by exact_mod_cast hb
  rw [sLt, decide_eq_true_iff, valQ, valQ, div_lt_div_iff₀ ha2 hb2]
  rw [show (100 : ℚ) * a.1 * b.2 = 100 * (a.1 * b.2) by ring,
      show (100 : ℚ) * b.1 * a.2 = 100 * (b.1 * a.2) by ring,
      mul_lt_mul_left (by norm_num : (0 : ℚ) < 100)]
  exact_mod_cast Iff.rfl

lemma sLt_false_iff (a b : Nat × Nat) (ha : 0 < a.2) (hb : 0 < b.2) :
    sLt a b = false ↔ valQ b ≤ valQ a := by
  constructor
  · intro h
    by_contra hle
    push_neg at hle
    rw [(sLt_iff a b ha hb).mpr hle] at h
    exact absurd h (by simp)
  · intro h
    cases hs : sLt a b
    · rfl
    · exact absurd ((sLt_iff a b ha hb).mp hs) (not_lt.mpr h)

/- ### Structural lemmas about the matching loop. -/

lemma stepMatch_cases (t : String) (acc : Option String × (Nat × Nat))
    (q : String × String) :
    stepMatch t acc q = (some q.1, psimN q.2 t) ∨ stepMatch t acc q = acc := by
  unfold stepMatch
  dsimp only
  split
  · exact Or.inl rfl
  · exact Or.inr rfl

lemma foldl_stepMatch_no80 (t : String) (L : List (String × String)) :
    ∀ acc, (∀ p ∈ L, sGe80 (psimN p.2 t) = false) →
      L.foldl (stepMatch t) acc = acc := by
  induction L with
  | nil => intro acc _; rfl
  | cons q L ih =>
      intro acc h
      have hq := h q (List.mem_cons_self q L)
      have hstep : stepMatch t acc q = acc := by
        simp [stepMatch, hq]
      rw [List.foldl_cons, hstep]
      exact ih acc (fun p hp => h p (List.mem_cons_of_mem q hp))

lemma foldl_stepMatch_noGt (t : String) (L : List (String × String)) :
    ∀ acc, (∀ p ∈ L, sLt acc.2 (psimN p.2 t) = false) →
      L.foldl (stepMatch t) acc = acc := by
  induction L with
  | nil => intro acc _; rfl
  | cons q L ih =>
      intro acc h
      have hq := h q (List.mem_cons_self q L)
      have hstep : stepMatch t acc q = acc := by
        simp [stepMatch, hq]
      rw [List.foldl_cons, hstep]
      exact ih acc (fun p hp => h p (List.mem_cons_of_mem q hp))

lemma foldl_stepMatch_snd (t : String) (L : List (String × String)) :
    ∀ acc, (L.foldl (stepMatch t) acc).2 = acc.2 ∨
      ∃ p ∈ L, (L.foldl (stepMatch t) acc).2 = psimN p.2 t := by
  induction L with
  | nil => intro acc; exact Or.inl rfl
  | cons q L ih =>
      intro acc
      rw [List.foldl_cons]
      rcases ih (stepMatch t acc q) with h | ⟨p, hp, h⟩
      · rcases stepMatch_cases t acc q with hs | hs
        · exact Or.inr ⟨q, List.mem_cons_self q L, by rw [h, hs]⟩
        · exact Or.inl (by rw [h, hs])
      · exact Or.inr ⟨p, List.mem_cons_of_mem q hp, h⟩

lemma foldl_stepMatch_fst (t : String) (L : List (String × String)) :
    ∀ acc, (L.foldl (stepMatch t) acc).1 = acc.1 ∨
      ∃ p ∈ L, (L.foldl (stepMatch t) acc).1 = some p.1 := by
  induction L with
  | nil => intro acc; exact Or.inl rfl
  | cons q L ih =>
      intro acc
      rw [List.foldl_cons]
      rcases ih (stepMatch t acc q) with h | ⟨p, hp, h⟩
      · rcases stepMatch_cases t acc q with hs | hs
        · exact Or.inr ⟨q, List.mem_cons_self q L, by rw [h, hs]⟩
        · exact Or.inl (by rw [h, hs])
      · exact Or.inr ⟨p, List.mem_cons_of_mem q hp, h⟩

lemma foldl_stepMatch_keepSome (t : String) (L : List (String × String)) :
    ∀ acc, acc.1.isSome = true →
      ((L.foldl (stepMatch t) acc).1).isSome = true := by
  induction L with
  | nil => intro acc h; exact h
  | cons q L ih =>
      intro acc h
      rw [List.foldl_cons]
      rcases stepMatch_cases t acc q with hs | hs <;> rw [hs]
      · exact ih _ rfl
      · exact ih _ h

lemma foldl_stepMatch_fires (t : String) (L : List (String × String)) :
    ∀ acc, acc = (none, (0, 1)) ∨ acc.1.isSome = true →
      (∃ p ∈ L, sGe80 (psimN p.2 t) = true) →
      ((L.foldl (stepMatch t) acc).1).isSome = true := by
  induction L with
  | nil => rintro acc _ ⟨p, hp, _⟩; exact absurd hp (List.not_mem_nil p)
  | cons q L ih =>
      rintro acc hacc ⟨p, hp, hge⟩
      rw [List.foldl_cons]
      rcases hacc with rfl | hsome
      · by_cases hq : sGe80 (psimN q.2 t) = true
        · have h4 := hq
          rw [sGe80, decide_eq_true_iff] at h4
          have hden := psimN_den_pos q.2 t
          have hlt : sLt (0, 1) (psimN q.2 t) = true := by
            rw [sLt, decide_eq_true_iff]
            simpa using by omega
          have hstep : stepMatch t (none, (0, 1)) q =
              (some q.1, psimN q.2 t) := by
            unfold stepMatch
            dsimp only
            rw [hlt, hq]
            rfl
          rw [hstep]
          exact foldl_stepMatch_keepSome t L _ rfl
        · have hstep : stepMatch t (none, (0, 1)) q = (none, (0, 1)) := by
            unfold stepMatch
            dsimp only
            rw [Bool.eq_false_iff.mpr hq]
            simp
          rw [hstep]
          rcases List.mem_cons.mp hp with rfl | hp2
          · exact absurd hge hq
          · exact ih _ (Or.inl rfl) ⟨p, hp2, hge⟩
      · exact foldl_stepMatch_keepSome t (q :: L) acc hsome

/- ### Concrete evaluations of the resolver, shared below. -/

set_option maxRecDepth 1000000
set_option maxHeartbeats 2000000

lemma eval_headphone : find_product_category "headphone" = some "phone" := by
  decide

lemma eval_tablet : find_product_category "tablet" = some "home" := by decide

lemma eval_phone : find_product_category "phone" = some "phone" := by decide

lemma eval_xyzzy : find_product_category "xyzzy-nonsense-term" = none := by
  decide

/- ### Claims about the challenge flow. -/

/-- C1: the claim says the challenge percentage-gap computation explicitly
special-cases myScore == 0 before dividing, so that compare(0, 0) returns
a defined message.  The code has no such guard: my_score = 0 with
friend_score = 0 falls into the else branch and the division
(my_score - friend_score) / my_score raises an uncaught ZeroDivisionError.
This theorem evaluates the embedded handler at that failing input. -/
theorem challenge_zero_zero_divides_by_zero :
    challenge 0 0 = ChallengeResult.zeroDivisionError := by
  norm_num [challenge]

/-- C6 counterexample: the claim says equal scores yield a tie message
distinct from both the ahead message and the trails message.  The code has
only two branches: compare(5, 5) falls into the else branch and produces
the trails message with a 0.0% gap — there is no third, tie-specific
message. -/
theorem challenge_equal_not_tie :
    challenge 5 5 = ChallengeResult.trails 0 := by
  norm_num [challenge, round1, roundHalfEven]

/-- C6 amended: the challenge compare operation is a two-way comparison:
my_score strictly less than friend_score yields the ahead message;
otherwise (my_score greater than or equal to friend_score, my_score
nonzero) it yields the trails message with the percentage gap
(my - friend) / my * 100 rounded to one decimal; in particular equal
nonzero scores yield the trails message with gap 0.0, not a distinct tie
message. -/
theorem challenge_two_way (my friend : ℚ) :
    (my < friend → challenge my friend = ChallengeResult.ahead) ∧
    (friend ≤ my → my ≠ 0 →
      challenge my friend =
        ChallengeResult.trails (round1 ((my - friend) / my * 100))) ∧
    (my ≠ 0 → challenge my my = ChallengeResult.trails 0) := by
  refine ⟨fun h => ?_, fun h h0 => ?_, fun h0 => ?_⟩
  · simp [challenge, h]
  · rw [challenge, if_neg (not_lt.mpr h), if_neg h0]
  · rw [challenge, if_neg (lt_irrefl my), if_neg h0]
    have : (my - my) / my * 100 = 0 := by
      rw [sub_self, zero_div, zero_mul]
    rw [this]
    norm_num [round1, roundHalfEven]

/-- Witness for challenge_two_way at the spec's own test inputs:
compare(3, 7) is the ahead message, compare(7, 3) the trails message with
the computed gap, compare(5, 5) the trails message with gap 0. -/
theorem challenge_two_way_witness :
    challenge 3 7 = ChallengeResult.ahead ∧
    challenge 7 3 = ChallengeResult.trails (round1 ((7 - 3) / 7 * 100)) ∧
    challenge 5 5 = ChallengeResult.trails 0 :=
  ⟨(challenge_two_way 3 7).1 (by norm_num),
   (challenge_two_way 7 3).2.1 (by norm_num) (by norm_num),
   (challenge_two_way 5 5).2.2 (by norm_num)⟩

/- ### Claims about the calculate flow. -/

lemma mainScoreFloatP_eval :
    mainScoreFloatP = (6333186975989759, 17592186044416) := by decide

lemma mainScoreFloat_eval : mainScoreFloat = 360 - 1 / 2 ^ 44 := by
  unfold mainScoreFloat valP
  rw [mainScoreFloatP_eval]
  norm_num

/-- C2 counterexample: the claim says evaluating
{transport: Car, shopping: Groceries, electronics_freq: Rarely} returns
score 3.6, the plain unscaled sum of the weights 2.3 + 1.0 + 0.3.  The
code multiplies the sum by 100 (api.py line 345, main.py line 88): api.py
answers 360.0 and main.py answers the unrounded float sum 360 - 2^-44,
neither of which is 3.6; moreover the literal label "Groceries" is not a
key of the shopping table (the key is "Groceries & Food") and is rejected
by the pydantic validator. -/
theorem calculate_not_unscaled :
    apiCalculate (some (some "Car", some "Groceries & Food", some "Rarely"))
      none none none ≠ CalcOutcome.score (36 / 10) ∧
    apiCalculate (some (some "Car", some "Groceries", some "Rarely"))
      none none none = CalcOutcome.validationError ∧
    mainScoreFloat ≠ 36 / 10 := by
  refine ⟨?_, rfl, ?_⟩
  · have h : apiCalculate (some (some "Car", some "Groceries & Food",
        some "Rarely")) none none none =
        CalcOutcome.score (round1 ((2.3 + 1 + 0.3) * 100)) := rfl
    rw [h, show round1 ((2.3 + 1 + 0.3) * 100) = 360 by
      norm_num [round1, roundHalfEven]]
    intro hc
    injection hc with h2
    norm_num at h2
  · rw [mainScoreFloat_eval]
    norm_num

/-- C2 amended: with the code's emission weights (transport "Car" = 2.3,
shopping "Groceries & Food" = 1.0, electronics_freq "Rarely" = 0.3), the
calculate evaluation returns the weight sum scaled by the x100 yearly-kg
convention, not the unscaled sum 3.6: api.py answers score
round((2.3 + 1.0 + 0.3) * 100, 1) = 360.0 on both its request shapes,
while main.py, which does not round, answers the IEEE-754 double
(2.3 + 1.0 + 0.3) * 100 = 6333186975989759 / 2^44 = 360 - 2^-44
(Python prints it 359.99999999999994), slightly below 360. -/
theorem calculate_scaled_by_100 :
    apiCalculate (some (some "Car", some "Groceries & Food", some "Rarely"))
      none none none = CalcOutcome.score 360 ∧
    apiCalculate none (some "Car") (some "Groceries & Food") (some "Rarely") =
      CalcOutcome.score 360 ∧
    mainScoreFloat = 360 - 1 / 2 ^ 44 ∧
    (359 : ℚ) < mainScoreFloat ∧ mainScoreFloat < 360 := by
  have hr : round1 ((2.3 + 1 + 0.3) * 100) = 360 := by
    norm_num [round1, roundHalfEven]
  refine ⟨?_, ?_, mainScoreFloat_eval, ?_, ?_⟩
  · have h : apiCalculate (some (some "Car", some "Groceries & Food",
        some "Rarely")) none none none =
        CalcOutcome.score (round1 ((2.3 + 1 + 0.3) * 100)) := rfl
    rw [h, hr]
  · have h : apiCalculate none (some "Car") (some "Groceries & Food")
        (some "Rarely") =
        CalcOutcome.score (round1 ((2.3 + 1 + 0.3) * 100)) := rfl
    rw [h, hr]
  · rw [mainScoreFloat_eval]
    norm_num
  · rw [mainScoreFloat_eval]
    norm_num

/-- C7 counterexample: the claim says a supplied label that is not a key
of the emission table is rejected with an InvalidChoice-class response in
the calculate evaluation.  In the main.py variant there is no validation:
the dict indexing CO2_FACTORS["transport"][transport] raises an uncaught
KeyError (an HTTP 500, not a structured rejection) for the unknown label
"Plane". -/
theorem main_invalid_label_keyerror :
    mainCalculate (some "Plane") (some "Groceries & Food") (some "Rarely") =
      CalcOutcome.keyError := rfl

/-- C7 amended: on api.py's nested-answers request shape the claim holds —
an invalid supplied label is caught during request parsing and rejected
with the 400 validation response, a missing answer gets the 400
missing-answers response, and no input reaches the score indexing with an
invalid label (no KeyError, no partial score, no zero-default).  On the
top-level-fields shape, however, the AnswersModel construction of api.py
line 332 runs outside the try/except with all three keyword arguments
passed explicitly, so ANY missing or invalid label — including an
all-missing request — raises an uncaught pydantic ValidationError
(HTTP 500) rather than a structured rejection: that path never returns a
400, only the uncaught error or a score.  In main.py missing answers are
rejected, but an invalid supplied label raises an uncaught KeyError. -/
theorem calculate_rejection_behavior :
    (∀ a1 a2 a3 t s e : Option String,
      (validatorRejects a1 CO2_transport || validatorRejects a2 CO2_shopping ||
        validatorRejects a3 CO2_electronics_freq) = true →
      apiCalculate (some (a1, a2, a3)) t s e = CalcOutcome.validationError) ∧
    (∀ a1 a2 a3 t s e : Option String,
      (validatorRejects a1 CO2_transport || validatorRejects a2 CO2_shopping ||
        validatorRejects a3 CO2_electronics_freq) = false →
      (falsy a1 || falsy a2 || falsy a3) = true →
      apiCalculate (some (a1, a2, a3)) t s e = CalcOutcome.missingAnswers) ∧
    (∀ ans t s e, apiCalculate ans t s e ≠ CalcOutcome.keyError) ∧
    (∀ t s e : Option String,
      apiCalculate none t s e = CalcOutcome.uncaughtValidationError ∨
      ∃ q, apiCalculate none t s e = CalcOutcome.score q) ∧
    (∀ t s e : Option String, t = none ∨ s = none ∨ e = none →
      apiCalculate none t s e = CalcOutcome.uncaughtValidationError) ∧
    (∀ tv sv ev : String, (CO2_transport.lookup tv).isNone = true →
      apiCalculate none (some tv) (some sv) (some ev) =
        CalcOutcome.uncaughtValidationError) ∧
    (∀ t s e : Option String, (falsy t || falsy s || falsy e) = true →
      mainCalculate t s e = CalcOutcome.missingAnswers) ∧
    (∀ tv sv ev : String, falsy (some tv) = false → falsy (some sv) = false →
      falsy (some ev) = false → (CO2_transport.lookup tv).isNone = true →
      mainCalculate (some tv) (some sv) (some ev) = CalcOutcome.keyError) := by
  refine ⟨fun a1 a2 a3 t s e hv => ?_, fun a1 a2 a3 t s e hv hf => ?_,
    fun ans t s e => ?_, fun t s e => ?_, fun t s e hmiss => ?_,
    fun tv sv ev hbad => ?_, fun t s e hf => ?_,
    fun tv sv ev h1 h2 h3 hnone => ?_⟩
  · rw [apiCalculate.eq_def]
    dsimp only
    rw [if_pos hv]
  · rw [apiCalculate.eq_def]
    dsimp only
    rw [if_neg (by rw [hv]; exact Bool.false_ne_true), if_pos hf]
  · intro hk
    cases ans with
    | some trip =>
        obtain ⟨a1, a2, a3⟩ := trip
        rw [apiCalculate.eq_def] at hk
        dsimp only at hk
        by_cases hv : (validatorRejects a1 CO2_transport ||
            validatorRejects a2 CO2_shopping ||
            validatorRejects a3 CO2_electronics_freq) = true
        · rw [if_pos hv] at hk
          exact CalcOutcome.noConfusion hk
        · rw [if_neg hv] at hk
          by_cases hf : (falsy a1 || falsy a2 || falsy a3) = true
          · rw [if_pos hf] at hk
            exact CalcOutcome.noConfusion hk
          · rw [if_neg hf] at hk
            rw [Bool.or_eq_true, Bool.or_eq_true] at hf hv
            push_neg at hf hv
            obtain ⟨⟨hft, hfs⟩, hfe⟩ := hf
            obtain ⟨⟨hvt, hvs⟩, hve⟩ := hv
            cases a1 with
            | none => exact hft rfl
            | some tv =>
              cases a2 with
              | none => exact hfs rfl
              | some sv =>
                cases a3 with
                | none => exact hfe rfl
                | some ev =>
                  have hvt2 : (CO2_transport.lookup tv).isNone ≠ true := hvt
                  have hvs2 : (CO2_shopping.lookup sv).isNone ≠ true := hvs
                  have hve2 : (CO2_electronics_freq.lookup ev).isNone ≠ true :=
                    hve
                  dsimp only at hk
                  cases ht : CO2_transport.lookup tv with
                  | none => exact hvt2 (by rw [ht]; rfl)
                  | some a =>
                    cases hs : CO2_shopping.lookup sv with
                    | none => exact hvs2 (by rw [hs]; rfl)
                    | some b =>
                      cases he : CO2_electronics_freq.lookup ev with
                      | none => exact hve2 (by rw [he]; rfl)
                      | some c =>
                        rw [ht, hs, he] at hk
                        exact CalcOutcome.noConfusion hk
    | none =>
        rw [apiCalculate.eq_def] at hk
        cases t with
        | none =>
            cases s <;> cases e <;>
              (dsimp only at hk; exact CalcOutcome.noConfusion hk)
        | some tv =>
          cases s with
          | none =>
              cases e <;>
                (dsimp only at hk; exact CalcOutcome.noConfusion hk)
          | some sv =>
            cases e with
            | none =>
                dsimp only at hk
                exact CalcOutcome.noConfusion hk
            | some ev =>
                dsimp only at hk
                by_cases hc : ((CO2_transport.lookup tv).isNone ||
                    (CO2_shopping.lookup sv).isNone ||
                    (CO2_electronics_freq.lookup ev).isNone) = true
                · rw [if_pos hc] at hk
                  exact CalcOutcome.noConfusion hk
                · rw [if_neg hc] at hk
                  rw [Bool.or_eq_true, Bool.or_eq_true] at hc
                  push_neg at hc
                  obtain ⟨⟨hc1, hc2⟩, hc3⟩ := hc
                  cases ht : CO2_transport.lookup tv with
                  | none => exact hc1 (by rw [ht]; rfl)
                  | some a =>
                    cases hs : CO2_shopping.lookup sv with
                    | none => exact hc2 (by rw [hs]; rfl)
                    | some b =>
                      cases he : CO2_electronics_freq.lookup ev with
                      | none => exact hc3 (by rw [he]; rfl)
                      | some c =>
                        rw [ht, hs, he] at hk
                        exact CalcOutcome.noConfusion hk
  · cases t with
    | none => exact Or.inl (by cases s <;> cases e <;> rfl)
    | some tv =>
      cases s with
      | none => exact Or.inl (by cases e <;> rfl)
      | some sv =>
        cases e with
        | none => exact Or.inl rfl
        | some ev =>
          by_cases hc : ((CO2_transport.lookup tv).isNone ||
              (CO2_shopping.lookup sv).isNone ||
              (CO2_electronics_freq.lookup ev).isNone) = true
          · exact Or.inl (by
              rw [apiCalculate.eq_def]
              dsimp only
              rw [if_pos hc])
          · right
            have hc2 := hc
            rw [Bool.or_eq_true, Bool.or_eq_true] at hc2
            push_neg at hc2
            obtain ⟨⟨hd1, hd2⟩, hd3⟩ := hc2
            cases ht : CO2_transport.lookup tv with
            | none => exact absurd (by rw [ht]; rfl) hd1
            | some a =>
              cases hs : CO2_shopping.lookup sv with
              | none => exact absurd (by rw [hs]; rfl) hd2
              | some b =>
                cases he : CO2_electronics_freq.lookup ev with
                | none => exact absurd (by rw [he]; rfl) hd3
                | some c =>
                  refine ⟨round1 ((a + b + c) * 100), ?_⟩
                  rw [apiCalculate.eq_def]
                  dsimp only
                  rw [if_neg hc, ht, hs, he]
  · rcases hmiss with rfl | rfl | rfl
    · cases s <;> cases e <;> rfl
    · cases t <;> cases e <;> rfl
    · cases t <;> cases s <;> rfl
  · rw [apiCalculate.eq_def]
    dsimp only
    rw [if_pos (by rw [hbad]; rfl)]
  · rw [mainCalculate.eq_def, if_pos hf]
  · rw [mainCalculate.eq_def,
      if_neg (by rw [h1, h2, h3]; exact Bool.false_ne_true)]
    dsimp only
    rw [Option.isNone_iff_eq_none.mp hnone]

/-- Witness for calculate_rejection_behavior: an invalid nested label and
a missing nested answer are rejected with the structured 400s, a valid
input never yields a KeyError, the all-missing and invalid-label requests
on the top-level shape both produce the uncaught ValidationError, and the
main.py variant rejects a missing answer but raises the uncaught KeyError
on the invalid label "Plane". -/
theorem calculate_rejection_behavior_witness :
    apiCalculate (some (some "Plane", some "Groceries & Food", some "Rarely"))
      none none none = CalcOutcome.validationError ∧
    apiCalculate (some (none, some "Groceries & Food", some "Rarely"))
      none none none = CalcOutcome.missingAnswers ∧
    apiCalculate (some (some "Car", some "Groceries & Food", some "Rarely"))
      none none none ≠ CalcOutcome.keyError ∧
    apiCalculate none none none none = CalcOutcome.uncaughtValidationError ∧
    apiCalculate none (some "Plane") (some "Groceries & Food")
      (some "Rarely") = CalcOutcome.uncaughtValidationError ∧
    mainCalculate none (some "Groceries & Food") (some "Rarely") =
      CalcOutcome.missingAnswers ∧
    mainCalculate (some "Plane") (some "Groceries & Food") (some "Rarely") =
      CalcOutcome.keyError :=
  ⟨calculate_rejection_behavior.1 (some "Plane") (some "Groceries & Food")
      (some "Rarely") none none none rfl,
   calculate_rejection_behavior.2.1 none (some "Groceries & Food")
      (some "Rarely") none none none rfl rfl,
   calculate_rejection_behavior.2.2.1
      (some (some "Car", some "Groceries & Food", some "Rarely"))
      none none none,
   calculate_rejection_behavior.2.2.2.2.1 none none none (Or.inl rfl),
   calculate_rejection_behavior.2.2.2.2.2.1 "Plane" "Groceries & Food"
      "Rarely" rfl,
   calculate_rejection_behavior.2.2.2.2.2.2.1 none (some "Groceries & Food")
      (some "Rarely") rfl,
   calculate_rejection_behavior.2.2.2.2.2.2.2 "Plane" "Groceries & Food"
      "Rarely" rfl rfl rfl rfl⟩

/- ### Claims about the category resolver. -/

lemma resolver_none_of_low (s : String)
    (h : ∀ p ∈ keywordPairs, psim p.2 (lower s) < 80) :
    find_product_category s = none := by
  unfold find_product_category
  rw [foldl_stepMatch_no80 (lower s) keywordPairs (none, (0, 1))
    (fun p hp => ?_)]
  rcases Bool.eq_false_or_eq_true (sGe80 (psimN p.2 (lower s))) with hb | hb
  · exact absurd ((sGe80_iff _ (psimN_den_pos _ _)).mp hb)
      (not_le.mpr (h p hp))
  · exact hb

/-- C3: the resolver returns a category only if some (category, keyword)
pair scores at least 80 on the 0-100 partial-similarity scale against the
lower-cased input, and returns none whenever every pair scores below
80. -/
theorem resolver_threshold_80 :
    (∀ s c, find_product_category s = some c →
      ∃ p ∈ keywordPairs, 80 ≤ psim p.2 (lower s)) ∧
    (∀ s, (∀ p ∈ keywordPairs, psim p.2 (lower s) < 80) →
      find_product_category s = none) := by
  constructor
  · intro s c hc
    by_contra hex
    push_neg at hex
    rw [resolver_none_of_low s hex] at hc
    exact Option.noConfusion hc
  · exact resolver_none_of_low

/-- Witness for resolver_threshold_80: the input "phone" resolves to a
category, so some pair reaches the threshold against it. -/
theorem resolver_threshold_80_witness :
    ∃ p ∈ keywordPairs, 80 ≤ psim p.2 (lower "phone") :=
  resolver_threshold_80.1 "phone" "phone" eval_phone

/-- C4 counterexample: the claim says every keyword used verbatim as input
resolves to its own category.  "headphone" is a keyword of the
electronics category, but the keyword "phone" of the phone category —
iterated first — is a literal substring of "headphone" and scores 100, so
the resolver answers "phone", not "electronics" (the later tie at 100 does
not replace the running best under the strict greater-than test). -/
theorem keyword_verbatim_counterexample :
    ("electronics", "headphone") ∈ keywordPairs ∧
    find_product_category "headphone" = some "phone" ∧
    (some "phone" : Option String) ≠ some "electronics" :=
  ⟨by decide, eval_headphone, by decide⟩

lemma mem_keywordPairs_of {ck : String × List String}
    (hck : ck ∈ PRODUCT_KEYWORDS) {k : String} (hk : k ∈ ck.2) :
    (ck.1, k) ∈ keywordPairs := by
  unfold keywordPairs
  exact List.mem_flatMap.mpr ⟨ck, hck, List.mem_map.mpr ⟨k, hk, rfl⟩⟩

lemma find_isSome_of_ge80 (s : String) (p : String × String)
    (hp : p ∈ keywordPairs) (h : sGe80 (psimN p.2 (lower s)) = true) :
    (find_product_category s).isSome = true := by
  unfold find_product_category
  exact foldl_stepMatch_fires (lower s) keywordPairs (none, (0, 1))
    (Or.inl rfl) ⟨p, hp, h⟩

/-- C4 amended: resolving a keyword verbatim always yields a category
(each keyword scores 100 against itself, so the threshold is met and the
result is never the no-match value), but the returned category is the
first one in iteration order whose keyword attains the maximum score, not
always the owning category: "headphone" resolves to "phone" and "tablet"
(which contains the home keyword "table" as a substring) resolves to
"home"; every other keyword resolves to its own category. -/
theorem keyword_selfmatch_amended :
    (∀ ck ∈ PRODUCT_KEYWORDS, ∀ k ∈ ck.2,
      (find_product_category k).isSome = true) ∧
    find_product_category "headphone" = some "phone" ∧
    find_product_category "tablet" = some "home" := by
  refine ⟨?_, eval_headphone, eval_tablet⟩
  have hall : ∀ ck ∈ PRODUCT_KEYWORDS, ∀ k ∈ ck.2,
      sGe80 (psimN k (lower k)) = true := by decide
  intro ck hck k hk
  exact find_isSome_of_ge80 k (ck.1, k) (mem_keywordPairs_of hck hk)
    (hall ck hck k hk)

/-- Witness for keyword_selfmatch_amended: the beauty keyword "cream"
used verbatim resolves to a category. -/
theorem keyword_selfmatch_amended_witness :
    (find_product_category "cream").isSome = true :=
  keyword_selfmatch_amended.1
    ("beauty", ["beauty", "cosmetic", "makeup", "skincare", "cream",
      "lotion", "perfume", "personal care"]) (by decide) "cream" (by decide)

lemma forall_sLt_of_all (L : List (String × String)) (t : String)
    (b : Nat × Nat) (hb : 0 < b.2)
    (h : ∀ q ∈ L, sLt (psimN q.2 t) b = true) :
    ∀ q ∈ L, valQ (psimN q.2 t) < valQ b :=
  fun q hq => (sLt_iff _ _ (psimN_den_pos _ _) hb).mp (h q hq)

lemma forall_sLe_of_all (L : List (String × String)) (t : String)
    (b : Nat × Nat) (hb : 0 < b.2)
    (h : ∀ q ∈ L, sLt b (psimN q.2 t) = false) :
    ∀ q ∈ L, valQ (psimN q.2 t) ≤ valQ b :=
  fun q hq => (sLt_false_iff _ _ hb (psimN_den_pos _ _)).mp (h q hq)

lemma stepMatch_fires (t : String) (acc : Option String × (Nat × Nat))
    (q : String × String) (h1 : sLt acc.2 (psimN q.2 t) = true)
    (h2 : sGe80 (psimN q.2 t) = true) :
    stepMatch t acc q = (some q.1, psimN q.2 t) := by
  unfold stepMatch
  dsimp only
  rw [h1, h2]
  rfl

/-- C5: when the (category, keyword) pair list splits around a pair p
whose score reaches the threshold, with every earlier pair scoring
strictly below p's score and every later pair scoring at most p's score
(so any pair tying the maximum sits after p), the resolver returns p's
category: the running best is replaced only on strictly greater scores,
so the first pair attaining the maximum wins.  The function is pure, so
repeated calls on the same input return this same winner. -/
theorem resolver_first_max_wins (s : String) (L1 : List (String × String))
    (p : String × String) (L2 : List (String × String))
    (hsplit : keywordPairs = L1 ++ p :: L2)
    (h80 : 80 ≤ psim p.2 (lower s))
    (hL1 : ∀ q ∈ L1, psim q.2 (lower s) < psim p.2 (lower s))
    (hL2 : ∀ q ∈ L2, psim q.2 (lower s) ≤ psim p.2 (lower s)) :
    find_product_category s = some p.1 := by
  have hdp := psimN_den_pos p.2 (lower s)
  unfold find_product_category
  rw [hsplit, List.foldl_append, List.foldl_cons]
  have hacc1 : sLt (L1.foldl (stepMatch (lower s)) (none, (0, 1))).2
      (psimN p.2 (lower s)) = true := by
    rcases foldl_stepMatch_snd (lower s) L1 (none, (0, 1)) with h | ⟨q, hq, h⟩
    · rw [h, sLt_iff _ _ (by norm_num) hdp,
        show valQ ((0, 1) : Nat × Nat) = 0 by norm_num [valQ]]
      exact lt_of_lt_of_le (by norm_num) h80
    · rw [h, sLt_iff _ _ (psimN_den_pos _ _) hdp]
      exact hL1 q hq
  have hge : sGe80 (psimN p.2 (lower s)) = true := (sGe80_iff _ hdp).mpr h80
  rw [stepMatch_fires (lower s) _ p hacc1 hge,
    foldl_stepMatch_noGt (lower s) L2 (some p.1, psimN p.2 (lower s))
    (fun q hq => (sLt_false_iff _ _ hdp (psimN_den_pos _ _)).mpr (hL2 q hq))]

/-- Witness for resolver_first_max_wins: on the input "tablet" the home
keyword "table" (pair index 33) attains the maximum score 100 first —
every earlier pair scores strictly less, every later pair (including the
electronics keyword "tablet" itself, which ties at 100) scores at most
100 — and the resolver returns "home" deterministically. -/
theorem resolver_first_max_wins_witness :
    find_product_category "tablet" = some "home" :=
  resolver_first_max_wins "tablet" (keywordPairs.take 33) ("home", "table")
    (keywordPairs.drop 34) (by decide)
    ((sGe80_iff (psimN "table" (lower "tablet"))
      (psimN_den_pos "table" (lower "tablet"))).mp (by decide))
    (forall_sLt_of_all (keywordPairs.take 33) (lower "tablet")
      (psimN "table" (lower "tablet"))
      (psimN_den_pos "table" (lower "tablet")) (by decide))
    (forall_sLe_of_all (keywordPairs.drop 34) (lower "tablet")
      (psimN "table" (lower "tablet"))
      (psimN_den_pos "table" (lower "tablet")) (by decide))

lemma psimN_empty (x : String) : psimN x "" = (0, 1) := by
  unfold psimN
  dsimp only
  split
  · rfl
  · rename_i h
    exact absurd (Or.inr rfl) h

/-- C8: the resolver is a total function whose no-match value is an
ordinary result: the empty string resolves to none (every keyword scores
exactly 0 against it), and the nonsense input of the spec's test also
resolves to none. -/
theorem resolver_total_no_match :
    find_product_category "" = none ∧
    (∀ x : String, psim x (lower "") = 0) ∧
    find_product_category "xyzzy-nonsense-term" = none := by
  refine ⟨by decide, fun x => ?_, eval_xyzzy⟩
  show valQ (psimN x (lower "")) = 0
  rw [show lower "" = "" from rfl, psimN_empty]
  norm_num [valQ]

lemma get_fallback_response_mem (r : Nat) :
    get_fallback_response r ∈ FALLBACK_RESPONSES := by
  unfold get_fallback_response
  have h : r % FALLBACK_RESPONSES.length < FALLBACK_RESPONSES.length :=
    Nat.mod_lt _ (by decide)
  rw [List.getD_eq_getElem?_getD, List.getElem?_eq_getElem h,
    Option.getD_some]
  exact List.getElem_mem h

/-- C9: whenever product mode answers with a fallback message — because
no category reached the matching threshold or the category has no catalog
entry — the message is, for every outcome of the random draw, an element
of the five-entry FALLBACK_RESPONSES list. -/
theorem fallback_message_in_list :
    ∀ (p : String) (r : Nat) (m : String),
      productMode (some p) r = ProductResponse.fallback m →
      m ∈ FALLBACK_RESPONSES := by
  intro p r m h
  rw [productMode.eq_def] at h
  dsimp only at h
  by_cases hp : p = ""
  · rw [if_pos hp] at h
    exact ProductResponse.noConfusion h
  · rw [if_neg hp] at h
    cases hfind : find_product_category p with
    | none =>
        rw [hfind] at h
        dsimp only at h
        injection h with h2
        rw [← h2]
        exact get_fallback_response_mem r
    | some cat =>
        rw [hfind] at h
        dsimp only at h
        cases hdb : PRODUCT_DB.lookup cat with
        | none =>
            rw [hdb] at h
            injection h with h2
            rw [← h2]
            exact get_fallback_response_mem r
        | some pinfo =>
            rw [hdb] at h
            exact ProductResponse.noConfusion h

/-- Witness for fallback_message_in_list: the nonsense product name of
the spec's test draws (with random index 0) the first fallback string,
which is in the configured list. -/
theorem fallback_message_in_list_witness :
    "Oops! We\x27re still working on that one. Please try something else! 😊"
      ∈ FALLBACK_RESPONSES :=
  fallback_message_in_list "xyzzy-nonsense-term" 0 _
    (by rw [productMode.eq_def]
        dsimp only
        rw [if_neg (by decide), eval_xyzzy]
        rfl)

lemma db_lookup_of_find (s c : String)
    (h : find_product_category s = some c) :
    (PRODUCT_DB.lookup c).isSome = true := by
  have hfst := foldl_stepMatch_fst (lower s) keywordPairs (none, (0, 1))
  unfold find_product_category at h
  rcases hfst with h0 | ⟨p, hp, hsome⟩
  · rw [h0] at h
    exact Option.noConfusion h
  · rw [h] at hsome
    obtain rfl : c = p.1 := Option.some_inj.mp hsome
    have hall : ∀ q ∈ keywordPairs, (PRODUCT_DB.lookup q.1).isSome = true :=
      by decide
    exact hall p hp

/-- C10: every category identifier of the keyword table is a key of the
product catalog: whenever the resolver returns a category, the PRODUCT_DB
lookup for it succeeds, and consequently a fallback message can only stem
from the no-match branch — the no-catalog-entry fallback branch of
product mode is unreachable. -/
theorem resolver_category_in_db :
    (∀ s c, find_product_category s = some c →
      ∃ pinfo, PRODUCT_DB.lookup c = some pinfo) ∧
    (∀ (p : String) (r : Nat) (m : String),
      productMode (some p) r = ProductResponse.fallback m →
      find_product_category p = none) := by
  constructor
  · intro s c h
    exact Option.isSome_iff_exists.mp (db_lookup_of_find s c h)
  · intro p r m h
    cases hfind : find_product_category p with
    | none => rfl
    | some cat =>
        exfalso
        rw [productMode.eq_def] at h
        dsimp only at h
        by_cases hp : p = ""
        · rw [if_pos hp] at h
          exact ProductResponse.noConfusion h
        · rw [if_neg hp] at h
          rw [hfind] at h
          dsimp only at h
          rcases Option.isSome_iff_exists.mp (db_lookup_of_find p cat hfind)
            with ⟨pinfo, hdb⟩
          rw [hdb] at h
          exact ProductResponse.noConfusion h

/-- Witness for resolver_category_in_db: "phone" resolves to the category
"phone", which has a catalog entry; the nonsense input produces a
fallback, hence resolves to none. -/
theorem resolver_category_in_db_witness :
    (∃ pinfo, PRODUCT_DB.lookup "phone" = some pinfo) ∧
    find_product_category "xyzzy-nonsense-term" = none :=
  ⟨resolver_category_in_db.1 "phone" "phone" eval_phone,
   resolver_category_in_db.2 "xyzzy-nonsense-term" 0 (get_fallback_response 0)
     (by rw [productMode.eq_def]
         dsimp only
         rw [if_neg (by decide), eval_xyzzy])⟩

end EcoFit
